import Mathlib

/-!
Shallow embedding of `file.go` from the go-mfs repository: the mutable-file
abstraction (`File`, `Open`, `Size`, `GetNode`, `Flush`, `Sync`, `NewFile`)
layered on an immutable content-addressed node store.

Modelling conventions:
* The Go `ipld.Node` interface is open; the code inspects it with a type
  switch over `*dag.ProtoNode` and `*dag.RawNode`.  We embed it as a sum
  type with a third constructor `otherNode` standing for any further
  implementation of the interface.
* A `ProtoNode` carries an opaque payload that the external decoder
  `ft.FSNodeFromBytes` turns into an `FSNode` or a decode error.  The
  payload is never inspected in this fragment except through that decoder,
  so the embedding stores the decode outcome directly.
* Go's `sync.RWMutex` (the descriptor lock) is embedded as an explicit
  `LockState`; an acquisition that would block is `none` in the result of
  the state-passing operation, so "this call blocks" is expressible.
  The node mutex `nodelk` only brackets single reads/writes of the `node`
  field; in a sequential state-passing embedding those critical sections
  are atomic already, so it needs no explicit state.
* Machine integers: `FSNode.FileSize()` is a `uint64` that the Go code
  casts to `int64`; the cast is embedded explicitly (`int64OfUint64`).
-/

namespace Mfs

/-- The unixfs node type tag decoded from a structured node's payload
(`ft.TRaw`, `ft.TDirectory`, `ft.TFile`, `ft.TMetadata`, `ft.TSymlink`,
`ft.THAMTShard`). -/
inductive FSNodeType
  | tRaw
  | tDirectory
  | tFile
  | tMetadata
  | tSymlink
  | tHAMTShard
  deriving DecidableEq, Repr

/-- Decoded form of a structured node's payload: the type tag and the
declared logical file size (`FileSize()`, a uint64). -/
structure FSNode where
  typ : FSNodeType
  fileSize : Nat
  deriving DecidableEq, Repr

/-- The errors file.go can return, one constructor per distinct source of
failure: decode failure from `ft.FSNodeFromBytes`, the two rejections in
Open's type switch, the unsupported-mode rejection, Size's unrecognized
node kind, and an error surfaced by the external Modifier constructor. -/
inductive MfsError
  | decodeFailure (msg : String)
  | unsupportedNodeType
  | symlinkNotSupported
  | modeNotSupported
  | corruptState
  | modifierFailure (msg : String)
  deriving DecidableEq, Repr

instance {ε α : Type} [DecidableEq ε] [DecidableEq α] :
    DecidableEq (Except ε α) := fun x y =>
  match x, y with
  | .error a, .error b => decidable_of_iff (a = b) (by simp)
  | .error _, .ok _ => isFalse (by simp)
  | .ok _, .error _ => isFalse (by simp)
  | .ok a, .ok b => decidable_of_iff (a = b) (by simp)

/-- An immutable node: a structured `*dag.ProtoNode` (embedded via the
outcome of decoding its payload), a `*dag.RawNode` leaf carrying raw bytes,
or any other implementation of the open `ipld.Node` interface.  Every node
has a Cid whose prefix records a version number. -/
inductive IpldNode
  | protoNode (decoded : Except String FSNode) (ver : Nat)
  | rawNode (rawData : List Nat) (ver : Nat)
  | otherNode (ver : Nat)
  deriving DecidableEq, Repr

/-- `node.Cid().Prefix().Version`. -/
def IpldNode.cidVersion : IpldNode → Nat
  | .protoNode _ v => v
  | .rawNode _ v => v
  | .otherNode v => v

/-- State of the descriptor lock (`desclock sync.RWMutex`): free, held by
`readers` concurrent shared holders, or held exclusively. -/
inductive LockState
  | unlocked
  | readLocked (readers : Nat)
  | writeLocked
  deriving DecidableEq, Repr

/-- `RLock`: acquire the shared lock; `none` when the acquisition would
block (an exclusive holder is present). -/
def LockState.tryRLock : LockState → Option LockState
  | .unlocked => some (.readLocked 1)
  | .readLocked n => some (.readLocked (n + 1))
  | .writeLocked => none

/-- `Lock`: acquire the exclusive lock; `none` when the acquisition would
block (any holder is present). -/
def LockState.tryWLock : LockState → Option LockState
  | .unlocked => some .writeLocked
  | .readLocked _ => none
  | .writeLocked => none

/-- `Unlock`: release the exclusive lock. -/
def LockState.wUnlock : LockState → LockState
  | .writeLocked => .unlocked
  | s => s

/-- `RUnlock`: release one shared hold. -/
def LockState.rUnlock : LockState → LockState
  | .readLocked 1 => .unlocked
  | .readLocked (n + 2) => .readLocked (n + 1)
  | s => s

/-- Modelled from the spec: the backing store / Modifier environment.  The
store itself is an external collaborator; the only ways this fragment
observes it are (a) the Modifier constructor, which may surface a
backing-store fetch failure, and (b) a descriptor flush, which either fails
or materializes a new node (`flushedNode`; `none` means the flush is a
no-op that re-materializes the bound snapshot). -/
structure DagService where
  fetchFailure : Option String
  flushFailure : Option String
  flushedNode : Option IpldNode
  deriving DecidableEq, Repr

/-- Modelled from the spec: the external Modifier, bound at construction to
one node snapshot; `RawLeaves` is its policy flag, and `flushOutcome` is
what its flush operation will produce (contract:
`Flush() -> newNode | error`). -/
structure DagModifier where
  node : IpldNode
  RawLeaves : Bool
  flushOutcome : Except String IpldNode
  deriving DecidableEq, Repr

/-- Modelled from the spec: the Modifier constructor contract
`New(snapshot, store, chunkingPolicy) -> Modifier | error`
(`mod.NewDagModifier` in the source), which may surface a backing-store
fetch failure. -/
def newDagModifier (dserv : DagService) (node : IpldNode) :
    Except MfsError DagModifier :=
  match dserv.fetchFailure with
  | some msg => .error (.modifierFailure msg)
  | none =>
    .ok { node := node
          RawLeaves := false
          flushOutcome :=
            match dserv.flushFailure, dserv.flushedNode with
            | some msg, _ => .error msg
            | none, some nd => .ok nd
            | none, none => .ok node }

/-- The `File` struct: identity (name and the opaque childCloser
back-reference, here an id), the DAG service held by the embedded inode,
the current committed node, the descriptor lock state, and the RawLeaves
policy bit. -/
structure File where
  name : String
  parent : Nat
  dagService : DagService
  node : IpldNode
  desclock : LockState
  RawLeaves : Bool
  deriving DecidableEq, Repr

/-- `NewFile` (file.go:29-42): build the File; `RawLeaves` is set exactly
when the node's Cid prefix version is non-zero.  Returns the file and the
(always nil) error. -/
def NewFile (name : String) (node : IpldNode) (parent : Nat)
    (dserv : DagService) : File × Option MfsError :=
  ({ name := name
     parent := parent
     dagService := dserv
     node := node
     desclock := .unlocked
     RawLeaves := decide (0 < node.cidVersion) }, none)

def OpenReadOnly : Nat := 0
def OpenWriteOnly : Nat := 1
def OpenReadWrite : Nat := 2

/-- A `fileDescriptor` as constructed by `File.Open`: the granted mode, the
full-sync flag, and the Modifier instance.  (The back pointer to the File
is passed explicitly to descriptor operations.) -/
structure FileDescriptor where
  perms : Nat
  sync : Bool
  mod : DagModifier
  deriving DecidableEq, Repr

/-- The node-kind validation at the top of `File.Open` (file.go:55-72): a
type switch with cases for `*dag.ProtoNode` (decode the payload, reject
symlink with a dedicated error, reject anything but file/raw) and
`*dag.RawNode` (accept); the switch has no default case, so any other node
kind falls through unvalidated. -/
def openValidate : IpldNode → Except MfsError Unit
  | .protoNode decoded _ =>
    match decoded with
    | .error msg => .error (.decodeFailure msg)
    | .ok fsn =>
      match fsn.typ with
      | .tSymlink => .error .symlinkNotSupported
      | .tFile => .ok ()
      | .tRaw => .ok ()
      | _ => .error .unsupportedNodeType
  | .rawNode _ _ => .ok ()
  | .otherNode _ => .ok ()

/-- The mode switch of `File.Open` (file.go:74-82): shared lock for
ReadOnly, exclusive lock for WriteOnly/ReadWrite, unsupported-mode error
for anything else.  `ok none` means the acquisition blocks. -/
def tryAcquire (flags : Nat) (l : LockState) :
    Except MfsError (Option LockState) :=
  if flags = OpenReadOnly then .ok l.tryRLock
  else if flags = OpenWriteOnly ∨ flags = OpenReadWrite then .ok l.tryWLock
  else .error .modeNotSupported

/-- `File.Open` (file.go:50-96): read the node snapshot, validate its kind,
acquire the lock for the requested mode, construct the Modifier (copying
the RawLeaves policy into it) and return the descriptor.  The result is
`none` when the call blocks on the descriptor lock; otherwise the updated
File paired with the descriptor or the error.  Note the source acquires
the lock before calling the Modifier constructor and does not release it
on that constructor's error path. -/
def File.Open (fi : File) (flags : Nat) (sync : Bool) :
    Option (File × Except MfsError FileDescriptor) :=
  let node := fi.node
  match openValidate node with
  | .error e => some (fi, .error e)
  | .ok _ =>
    match tryAcquire flags fi.desclock with
    | .error e => some (fi, .error e)
    | .ok none => none
    | .ok (some l) =>
      let fi' : File := { fi with desclock := l }
      match newDagModifier fi.dagService node with
      | .error e => some (fi', .error e)
      | .ok dmod =>
        some (fi', .ok { perms := flags
                         sync := sync
                         mod := { dmod with RawLeaves := fi.RawLeaves } })

/-- The Go cast `int64(u)` of a `uint64` value. -/
def int64OfUint64 (u : Nat) : Int :=
  if u % 2 ^ 64 < 2 ^ 63 then ((u % 2 ^ 64 : Nat) : Int)
  else ((u % 2 ^ 64 : Nat) : Int) - 2 ^ 64

/-- `File.Size` (file.go:99-114): under the node mutex, return the decoded
declared size of a structured node (or the decode error), the byte length
of a raw leaf, and a corrupt-state error for any other node kind.  The
File is returned unchanged alongside the result. -/
def File.Size (fi : File) : File × Except MfsError Int :=
  match fi.node with
  | .protoNode decoded _ =>
    match decoded with
    | .error msg => (fi, .error (.decodeFailure msg))
    | .ok fsn => (fi, .ok (int64OfUint64 fsn.fileSize))
  | .rawNode d _ => (fi, .ok (Int.ofNat d.length))
  | .otherNode _ => (fi, .error .corruptState)

/-- `File.GetNode` (file.go:117-121): return the current committed node
snapshot and a nil error, leaving the File unchanged. -/
def File.GetNode (fi : File) : File × Except MfsError IpldNode :=
  (fi, .ok fi.node)

/-- Modelled from the spec: `fileDescriptor.Flush` (the descriptor's source
file is not part of this fragment).  Ask the Modifier to materialize the
pending edits; on success store the new node into the owning File; on
failure return the error with the File unchanged.  (The parent-closer
callback carries no further state observed by these claims and is taken to
succeed.) -/
def FileDescriptor.Flush (fd : FileDescriptor) (fi : File) :
    File × Option MfsError :=
  match fd.mod.flushOutcome with
  | .error msg => (fi, some (.modifierFailure msg))
  | .ok nd => ({ fi with node := nd }, none)

/-- Modelled from the spec: `fileDescriptor.Close` (the descriptor's source
file is not part of this fragment).  Release exactly the lock class
acquired at Open: one shared hold for a ReadOnly descriptor, the exclusive
hold otherwise. -/
def FileDescriptor.Close (fd : FileDescriptor) (fi : File) :
    File × Option MfsError :=
  if fd.perms = OpenReadOnly then
    ({ fi with desclock := fi.desclock.rUnlock }, none)
  else
    ({ fi with desclock := fi.desclock.wUnlock }, none)

/-- `File.Flush` (file.go:123-133): open a write-only descriptor in
full-sync mode, return the error if Open fails; otherwise invoke the
descriptor's Flush and return its error, with the deferred Close running
after Flush on every such path (its own error discarded, as in the
source's `defer fd.Close()`). -/
def File.Flush (fi : File) : Option (File × Option MfsError) :=
  match fi.Open OpenWriteOnly true with
  | none => none
  | some (fi1, .error e) => some (fi1, some e)
  | some (fi1, .ok fd) =>
    let flushed := FileDescriptor.Flush fd fi1
    let closed := FileDescriptor.Close fd flushed.1
    some (closed.1, flushed.2)

/-- The spec's words for `File.Flush` (section 4.1 Flush and section 7):
open a write-only, full-sync descriptor; fail with the Open error if that
fails; otherwise invoke the descriptor's flush, ensure the descriptor is
closed on this exit path, and surface the flush error to the caller, not
hidden by the subsequent Close. -/
def flushAsSpecified (fi : File) : Option (File × Option MfsError) :=
  match fi.Open OpenWriteOnly true with
  | none => none
  | some (st, .error openErr) => some (st, some openErr)
  | some (st, .ok fd) =>
    let flushErr := (FileDescriptor.Flush fd st).2
    let afterFlush := (FileDescriptor.Flush fd st).1
    let afterClose := (FileDescriptor.Close fd afterFlush).1
    some (afterClose, flushErr)

/-- `File.Sync` (file.go:135-140): take the exclusive descriptor lock and
release it immediately, then return nil.  `none` means the call is blocked
because some descriptor still holds the lock. -/
def File.Sync (fi : File) : Option (File × Option MfsError) :=
  match fi.desclock.tryWLock with
  | none => none
  | some l => some ({ fi with desclock := l.wUnlock }, none)

/-! Concrete inputs used by the theorems below. -/

/-- A backing store in which nothing fails. -/
def plainStore : DagService :=
  { fetchFailure := none, flushFailure := none, flushedNode := none }

/-- A backing store whose fetches fail, so that the Modifier constructor
surfaces an error. -/
def fetchFailStore : DagService :=
  { fetchFailure := some "fetch", flushFailure := none, flushedNode := none }

/-- A file over a raw-leaf node whose backing store fetches fail. -/
def fetchFailFile : File :=
  { name := "a", parent := 0, dagService := fetchFailStore,
    node := .rawNode [7] 0, desclock := .unlocked, RawLeaves := false }

/-- A file whose structured node decodes to a symlink. -/
def symlinkFile : File :=
  { name := "s", parent := 0, dagService := plainStore,
    node := .protoNode (.ok { typ := .tSymlink, fileSize := 0 }) 0,
    desclock := .unlocked, RawLeaves := false }

/-- A healthy file over a raw-leaf node. -/
def plainRawFile : File :=
  { name := "c", parent := 0, dagService := plainStore,
    node := .rawNode [1, 2] 0, desclock := .unlocked, RawLeaves := false }

/-- A file whose structured node declares type File with size 5. -/
def sizedFile : File :=
  { name := "d", parent := 0, dagService := plainStore,
    node := .protoNode (.ok { typ := .tFile, fileSize := 5 }) 1,
    desclock := .unlocked, RawLeaves := true }

/-- A file whose descriptor lock is held exclusively by a writer. -/
def syncBlockedFile : File :=
  { name := "e", parent := 0, dagService := plainStore,
    node := .rawNode [] 0, desclock := .writeLocked, RawLeaves := false }

/-- A file whose descriptor lock is free. -/
def syncFreeFile : File :=
  { name := "e", parent := 0, dagService := plainStore,
    node := .rawNode [] 0, desclock := .unlocked, RawLeaves := false }

/-- A version-1 file, so its RawLeaves policy bit is set. -/
def rawLeavesFile : File :=
  { name := "g", parent := 0, dagService := plainStore,
    node := .rawNode [3] 1, desclock := .unlocked, RawLeaves := true }

/-- A file whose current node is neither a ProtoNode nor a RawNode. -/
def unrecognizedNodeFile : File :=
  { name := "b", parent := 0, dagService := plainStore,
    node := .otherNode 0, desclock := .unlocked, RawLeaves := false }

/-- Claim C1: the spec requires a failed Open to leave the File unchanged,
in particular with the access lock not held.  The code violates this on the
Modifier-constructor failure path: the lock is acquired before the
constructor runs and is not released when it errors.  Evaluated at a
concrete failing input: a write-mode Open whose Modifier construction
fails returns the error with the exclusive lock still held, and afterwards
every valid Open on that File blocks forever. -/
theorem open_modifier_failure_leaks_lock :
    fetchFailFile.Open OpenWriteOnly false =
      some ({ fetchFailFile with desclock := .writeLocked },
            .error (.modifierFailure "fetch"))
    ∧ File.Open { fetchFailFile with desclock := .writeLocked }
        OpenWriteOnly false = none
    ∧ File.Open { fetchFailFile with desclock := .writeLocked }
        OpenReadOnly false = none :=
  ⟨rfl, rfl, rfl⟩

/-- Claim C2: Open's node-kind validation.  A structured node passes
exactly when its decoded type is File or Raw; a decoded Symlink is
rejected with the dedicated symlink error (and Open then fails with that
error regardless of the requested mode, leaving the File unchanged); any
other decoded type is rejected as an unsupported node type; a malformed
payload fails with its decode error; a raw-leaf node is accepted
unconditionally. -/
theorem open_rejects_nonfile_nodes (fsn : FSNode) (msg : String) (v : Nat)
    (d : List Nat) (fi : File) (flags : Nat) (s : Bool) :
    (openValidate (.protoNode (.ok fsn) v) = .ok () ↔
      fsn.typ = .tFile ∨ fsn.typ = .tRaw)
    ∧ (fsn.typ = .tSymlink →
        openValidate (.protoNode (.ok fsn) v) = .error .symlinkNotSupported)
    ∧ (fsn.typ ≠ .tFile → fsn.typ ≠ .tRaw → fsn.typ ≠ .tSymlink →
        openValidate (.protoNode (.ok fsn) v) = .error .unsupportedNodeType)
    ∧ (openValidate (.protoNode (.error msg) v) = .error (.decodeFailure msg))
    ∧ (openValidate (.rawNode d v) = .ok ())
    ∧ (fi.node = .protoNode (.ok fsn) v → fsn.typ = .tSymlink →
        fi.Open flags s = some (fi, .error .symlinkNotSupported)) := by
  obtain ⟨t, sz⟩ := fsn
  refine ⟨?_, ?_, ?_, rfl, rfl, ?_⟩
  · cases t <;> simp [openValidate]
  · intro ht; cases ht; rfl
  · intro h1 h2 h3
    cases t <;> simp_all [openValidate]
  · intro hn ht
    cases ht
    simp [File.Open, hn, openValidate]

/-- Witness for `open_rejects_nonfile_nodes`: opening a symlink-typed file
with the out-of-range mode 5 still fails with the symlink error and leaves
the File unchanged. -/
theorem open_rejects_nonfile_nodes_witness :
    symlinkFile.Open 5 true = some (symlinkFile, .error .symlinkNotSupported) :=
  (open_rejects_nonfile_nodes { typ := .tSymlink, fileSize := 0 } "" 0 []
    symlinkFile 5 true).2.2.2.2.2 rfl rfl

/-- Claim C3: for a File with a valid file-shaped node (validation passes),
a healthy store and a free lock, Open with ReadOnly acquires the shared
lock, Open with WriteOnly or ReadWrite acquires the exclusive lock, and
Open with any other mode value returns the unsupported-mode error with the
File — in particular its lock state — unchanged, so a subsequent valid
Open (first three conjuncts) succeeds immediately. -/
theorem open_mode_locking (fi : File) (s : Bool) (flags : Nat)
    (hv : openValidate fi.node = .ok ())
    (hm : fi.dagService.fetchFailure = none)
    (hl : fi.desclock = .unlocked) :
    (∃ fd, fi.Open OpenReadOnly s =
      some ({ fi with desclock := .readLocked 1 }, .ok fd))
    ∧ (∃ fd, fi.Open OpenWriteOnly s =
      some ({ fi with desclock := .writeLocked }, .ok fd))
    ∧ (∃ fd, fi.Open OpenReadWrite s =
      some ({ fi with desclock := .writeLocked }, .ok fd))
    ∧ (flags ≠ OpenReadOnly → flags ≠ OpenWriteOnly → flags ≠ OpenReadWrite →
        fi.Open flags s = some (fi, .error .modeNotSupported)) := by
  have hnd : ∃ dm, newDagModifier fi.dagService fi.node = .ok dm := by
    simp only [newDagModifier, hm]
    exact ⟨_, rfl⟩
  obtain ⟨dm, hdm⟩ := hnd
  refine
    ⟨⟨{ perms := OpenReadOnly, sync := s,
        mod := { dm with RawLeaves := fi.RawLeaves } }, ?_⟩,
     ⟨{ perms := OpenWriteOnly, sync := s,
        mod := { dm with RawLeaves := fi.RawLeaves } }, ?_⟩,
     ⟨{ perms := OpenReadWrite, sync := s,
        mod := { dm with RawLeaves := fi.RawLeaves } }, ?_⟩, ?_⟩
  · simp [File.Open, hv, hl, tryAcquire, OpenReadOnly, OpenWriteOnly,
      OpenReadWrite, LockState.tryRLock, hdm]
  · simp [File.Open, hv, hl, tryAcquire, OpenReadOnly, OpenWriteOnly,
      OpenReadWrite, LockState.tryWLock, hdm]
  · simp [File.Open, hv, hl, tryAcquire, OpenReadOnly, OpenWriteOnly,
      OpenReadWrite, LockState.tryWLock, hdm]
  · intro h0 h1 h2
    simp [File.Open, hv, tryAcquire, h0, h1, h2]

/-- Witness for `open_mode_locking`: on a healthy raw-leaf file a ReadOnly
open takes one shared hold, and mode 9 fails with the unsupported-mode
error leaving the File unchanged. -/
theorem open_mode_locking_witness :
    (∃ fd, plainRawFile.Open OpenReadOnly true =
      some ({ plainRawFile with desclock := .readLocked 1 }, .ok fd))
    ∧ plainRawFile.Open 9 true =
        some (plainRawFile, .error .modeNotSupported) := by
  have h := open_mode_locking plainRawFile true 9 rfl rfl rfl
  exact ⟨h.1, h.2.2.2 (by decide) (by decide) (by decide)⟩

/-- Claim C4: Size returns the decoded declared logical size of a
structured node (as the int64 cast of the decoded uint64), the decode
error for a malformed payload, the byte length of a raw leaf, and the
corrupt-state error for any other node kind — in every case leaving the
File unchanged. -/
theorem size_by_node_kind (fi : File) (fsn : FSNode) (msg : String)
    (v : Nat) (d : List Nat) :
    (fi.node = .protoNode (.ok fsn) v →
      fi.Size = (fi, .ok (int64OfUint64 fsn.fileSize)))
    ∧ (fi.node = .protoNode (.error msg) v →
      fi.Size = (fi, .error (.decodeFailure msg)))
    ∧ (fi.node = .rawNode d v → fi.Size = (fi, .ok (Int.ofNat d.length)))
    ∧ (fi.node = .otherNode v → fi.Size = (fi, .error .corruptState)) := by
  refine ⟨?_, ?_, ?_, ?_⟩ <;> intro h <;> simp [File.Size, h]

/-- Witness for `size_by_node_kind`: a structured node declaring size 5
reports size 5 with the File unchanged. -/
theorem size_by_node_kind_witness :
    sizedFile.Size = (sizedFile, .ok 5) := by
  have h := (size_by_node_kind sizedFile { typ := .tFile, fileSize := 5 }
    "" 1 []).1 rfl
  norm_num [int64OfUint64] at h
  exact h

/-- Claim C5: Sync blocks while a write descriptor holds the lock, and
whenever it returns it returns a nil error and the File unchanged (it
acquired and immediately released the exclusive lock). -/
theorem sync_write_barrier (fi : File) :
    (fi.desclock = .writeLocked → fi.Sync = none)
    ∧ (fi.desclock = .unlocked → fi.Sync = some (fi, none))
    ∧ (∀ fi2 e, fi.Sync = some (fi2, e) → fi2 = fi ∧ e = none) := by
  obtain ⟨n, p, ds, nd, lk, rl⟩ := fi
  refine ⟨?_, ?_, ?_⟩
  · intro h
    cases h
    rfl
  · intro h
    cases h
    rfl
  · intro fi2 e h
    cases lk
    all_goals simp [File.Sync, LockState.tryWLock, LockState.wUnlock] at h
    all_goals simp_all

/-- Witness for `sync_write_barrier`: Sync on a write-locked file blocks;
Sync on a free file returns the file unchanged with a nil error. -/
theorem sync_write_barrier_witness :
    syncBlockedFile.Sync = none
    ∧ syncFreeFile.Sync = some (syncFreeFile, none) :=
  ⟨(sync_write_barrier syncBlockedFile).1 rfl,
   (sync_write_barrier syncFreeFile).2.1 rfl⟩

/-- Claim C6: File.Flush is the composition the spec describes — open a
write-only full-sync descriptor, return the Open error if Open fails,
otherwise invoke the descriptor's Flush with the descriptor closed on that
exit path afterwards, surfacing the flush error and not the Close result. -/
theorem flush_matches_spec (fi : File) : fi.Flush = flushAsSpecified fi :=
  rfl

/-- Claim C7: NewFile sets RawLeaves exactly when the node's Cid prefix
version is positive, and every successful Open copies the File's RawLeaves
flag into the Modifier of the returned descriptor. -/
theorem rawleaves_policy (name : String) (nd : IpldNode) (p : Nat)
    (ds : DagService) (fi fi2 : File) (flags : Nat) (s : Bool)
    (fd : FileDescriptor) :
    ((NewFile name nd p ds).1.RawLeaves = decide (0 < nd.cidVersion))
    ∧ (fi.Open flags s = some (fi2, .ok fd) →
        fd.mod.RawLeaves = fi.RawLeaves) := by
  refine ⟨rfl, ?_⟩
  intro h
  simp only [File.Open] at h
  repeat' split at h
  all_goals try simp_all
  all_goals obtain ⟨-, h2⟩ := h
  all_goals subst h2
  all_goals rfl

/-- Witness for `rawleaves_policy`: a version-1 node yields RawLeaves =
true, and the descriptor returned by a concrete successful Open carries
its File's RawLeaves flag in its Modifier. -/
theorem rawleaves_policy_witness :
    (NewFile "g" (.rawNode [3] 1) 0 plainStore).1.RawLeaves = true
    ∧ ({ perms := 0, sync := true,
         mod := { node := IpldNode.rawNode [3] 1, RawLeaves := true,
                  flushOutcome := Except.ok (IpldNode.rawNode [3] 1) } }
        : FileDescriptor).mod.RawLeaves = rawLeavesFile.RawLeaves := by
  constructor
  · exact (rawleaves_policy "g" (.rawNode [3] 1) 0 plainStore rawLeavesFile
      rawLeavesFile 0 true
      { perms := 0, sync := true,
        mod := { node := .rawNode [3] 1, RawLeaves := true,
                 flushOutcome := .ok (.rawNode [3] 1) } }).1
  · exact (rawleaves_policy "g" (.rawNode [3] 1) 0 plainStore rawLeavesFile
      { rawLeavesFile with desclock := .readLocked 1 } 0 true _).2 rfl

/-- Claim C8: GetNode returns the current committed node and a nil error,
and leaves the File unchanged; it never fails. -/
theorem getnode_never_fails (fi : File) :
    fi.GetNode = (fi, .ok fi.node) :=
  rfl

/-- Claim C9: the node-kind validation in Open is non-exhaustive.  On a
File whose node is neither a ProtoNode nor a RawNode, Open performs no
validation, acquires the lock and returns a descriptor; Size on that
successfully opened File hits the corrupt-state branch. -/
theorem open_validation_nonexhaustive :
    unrecognizedNodeFile.Open OpenReadOnly false =
      some ({ unrecognizedNodeFile with desclock := .readLocked 1 },
            .ok { perms := OpenReadOnly, sync := false,
                  mod := { node := .otherNode 0, RawLeaves := false,
                           flushOutcome := .ok (.otherNode 0) } })
    ∧ (File.Size
        { unrecognizedNodeFile with desclock := .readLocked 1 }).2 =
        .error .corruptState :=
  ⟨rfl, rfl⟩

/-- Claim C10: NewFile never fails — the error component is nil for every
input, and the returned File holds the given node. -/
theorem newfile_never_fails (name : String) (node : IpldNode) (parent : Nat)
    (dserv : DagService) :
    (NewFile name node parent dserv).2 = none
    ∧ (NewFile name node parent dserv).1.node = node :=
  ⟨rfl, rfl⟩

end Mfs
